import Mathlib

/-!
Verification of the UTC offset-resolution core of a chrono fork.

The file shallowly embeds `src/offset/utc.rs` (the `Utc` zone and its
`TimeZone`/`Offset` implementations) together with the collaborators the
claims need.  The collaborators (`FixedOffset`, `MappedLocalTime`, the
system-time conversion used by `Utc::now`) are declared outside the
provided source slice, so those definitions are modelled from the
specification and say so in their doc comments.
-/

/-- A naive (zone-less) datetime, represented abstractly as a signed count
of seconds; the calendar component that fixes the representable range is
outside this core, so only the value identity matters here. -/
abbrev NaiveDateTime := Int

/-- The singleton UTC time zone: the zero-sized struct `Utc` in the
source. -/
structure Utc where
deriving DecidableEq

/-- Modelled from the spec: the `RangeError` value returned by the
out-of-slice `FixedOffset` constructors when the one-day magnitude bound
is exceeded. -/
inductive RangeError where
  | rangeError
deriving DecidableEq

/-- Modelled from the spec: `FixedOffset` wraps a signed second count; its
declaration is outside the provided source slice.  The range invariant is
checked by the constructors, not carried in the type. -/
structure FixedOffset where
  local_minus_utc : Int
deriving DecidableEq

/-- Modelled from the spec: `FixedOffset::east(seconds)` fails with
`RangeError` when `|seconds| >= 86400` (a hard bound, never clamped or
wrapped) and otherwise stores the count as-is (east-of-UTC positive). -/
def FixedOffset.east (secs : Int) : Except RangeError FixedOffset :=
  if -86400 < secs ∧ secs < 86400 then .ok ⟨secs⟩ else .error .rangeError

/-- Modelled from the spec: `FixedOffset::west(seconds)` negates the
magnitude before storing; same hard bound as `east`. -/
def FixedOffset.west (secs : Int) : Except RangeError FixedOffset :=
  if -86400 < secs ∧ secs < 86400 then .ok ⟨-secs⟩ else .error .rangeError

/-- Modelled from the spec: the `Offset` capability of `FixedOffset`
returns the value unchanged by definition. -/
def FixedOffset.fix (o : FixedOffset) : FixedOffset := o

/-- Modelled from the spec: the signed displacement from UTC, in seconds,
reported by a resolved offset value. -/
def FixedOffset.displacement (o : FixedOffset) : Int := o.local_minus_utc

/-- Modelled from the spec: the three-variant result of resolving a naive
local timestamp against a zone (declared outside the provided slice). -/
inductive MappedLocalTime (T : Type) where
  | Single (offset : T)
  | Ambiguous (earliest latest : T)
  | None
deriving DecidableEq

/-- `TimeZone::from_offset` for `Utc`: ignores its argument and returns
the singleton (src/offset/utc.rs lines 112-114). -/
def Utc.from_offset (_state : Utc) : Utc := {}

/-- `TimeZone::offset_from_local_datetime` for `Utc`: always
`Single(Utc)` (src/offset/utc.rs lines 116-118). -/
def Utc.offset_from_local_datetime (_ : Utc) (_local : NaiveDateTime) :
    MappedLocalTime Utc :=
  .Single {}

/-- `TimeZone::offset_from_utc_datetime` for `Utc`: returns the bare
singleton offset, not a `MappedLocalTime` (src/offset/utc.rs lines
120-122). -/
def Utc.offset_from_utc_datetime (_ : Utc) (_utc : NaiveDateTime) : Utc := {}

/-- `Offset::fix` for `Utc`: the source is `FixedOffset::east(0).unwrap()`
(src/offset/utc.rs lines 125-129); the potential `unwrap` panic is
modelled as `Option.none` via `Except.toOption`. -/
def Utc.fix (_ : Utc) : Option FixedOffset :=
  (FixedOffset.east 0).toOption

/-- The `fmt::Debug` rendering of `Utc` (src/offset/utc.rs lines
131-135): writes the fixed token `Z`. -/
def Utc.fmtDebug (_ : Utc) : String := "Z"

/-- The `fmt::Display` rendering of `Utc` (src/offset/utc.rs lines
137-141): writes the fixed token `UTC`. -/
def Utc.fmtDisplay (_ : Utc) : String := "UTC"

/-- Modelled from the spec: `DateTime::try_from_system_time` (declared
outside the provided slice) converts a platform clock instant to a
timestamp, failing exactly when the instant lies outside the representable
range; the range endpoints `lo`, `hi` are owned by the excluded calendar
component and therefore kept as parameters. -/
def try_from_system_time (lo hi t : Int) : Option Int :=
  if lo ≤ t ∧ t ≤ hi then some t else none

/-- `Utc::now` (src/offset/utc.rs lines 90-94): converts the host clock
reading and tags it with the `Utc` zone; the `expect` panic on an
out-of-range clock is modelled as `Option.none`. -/
def Utc.now (lo hi clock : Int) : Option (Int × Utc) :=
  (try_from_system_time lo hi clock).map (fun t => (t, {}))

/-- Modelled from the spec: `FixedOffset` as a `TimeZone` resolves every
local datetime to `Single(self)` — a fixed offset has no transitions. -/
def FixedOffset.offset_from_local_datetime (o : FixedOffset)
    (_local : NaiveDateTime) : MappedLocalTime FixedOffset :=
  .Single o

/-- Modelled from the spec: converting a naive UTC timestamp to local
civil time under a fixed offset adds the displacement. -/
def FixedOffset.utc_to_local (o : FixedOffset) (t : NaiveDateTime) :
    NaiveDateTime :=
  t + o.local_minus_utc

/-- Modelled from the spec: converting a naive local timestamp back to
UTC under a fixed offset subtracts the displacement. -/
def FixedOffset.local_to_utc (o : FixedOffset) (t : NaiveDateTime) :
    NaiveDateTime :=
  t - o.local_minus_utc

/-- C1: for every naive local datetime `t`, `Utc.offset_from_local_datetime t`
is `Single` of the zero (singleton) UTC offset; it is never `Ambiguous`
and never `None`. -/
theorem utc_offset_from_local_datetime_always_single (u : Utc)
    (t : NaiveDateTime) :
    u.offset_from_local_datetime t = .Single {} ∧
    (∀ a b : Utc, u.offset_from_local_datetime t ≠ .Ambiguous a b) ∧
    u.offset_from_local_datetime t ≠ .None := by
  refine ⟨rfl, fun a b => ?_, ?_⟩ <;> simp [Utc.offset_from_local_datetime]

/-- C1 witness: the theorem applied at the singleton zone and the naive
datetime 0. -/
theorem utc_offset_from_local_datetime_always_single_witness :
    Utc.offset_from_local_datetime {} 0 = .Single {} :=
  (utc_offset_from_local_datetime_always_single {} 0).1

/-- C2: for every naive UTC datetime `t`, `Utc.offset_from_utc_datetime t`
is total and returns the bare singleton (zero) offset directly; by its
type it returns `Utc`, not a `MappedLocalTime`, so the UTC-to-local
direction is never ambiguous. -/
theorem utc_offset_from_utc_datetime_total (u : Utc) (t : NaiveDateTime) :
    u.offset_from_utc_datetime t = {} := rfl

/-- C3: `Utc.fix` returns exactly `FixedOffset::east(0)`, the
zero-magnitude fixed offset, for the singleton `Utc` value. -/
theorem utc_fix_is_east_zero (u : Utc) :
    u.fix = (FixedOffset.east 0).toOption ∧
    u.fix = some ⟨0⟩ ∧
    FixedOffset.east 0 = .ok ⟨0⟩ :=
  ⟨rfl, rfl, rfl⟩

/-- C3 witness: the theorem applied at the singleton zone. -/
theorem utc_fix_is_east_zero_witness : Utc.fix {} = some ⟨0⟩ :=
  (utc_fix_is_east_zero {}).2.1

/-- C4: `Utc.from_offset` ignores its argument and returns the singleton;
every value of the zero-sized type `Utc` equals that singleton. -/
theorem utc_from_offset_returns_singleton (o : Utc) :
    Utc.from_offset o = {} ∧ ∀ u : Utc, u = {} :=
  ⟨rfl, fun u => by cases u; rfl⟩

/-- C4 witness: the theorem applied at the singleton offset value. -/
theorem utc_from_offset_returns_singleton_witness :
    Utc.from_offset {} = {} :=
  (utc_from_offset_returns_singleton {}).1

/-- C5: `Utc` renders as the fixed debug token `"Z"` and the fixed
display token `"UTC"`, for every value of the type. -/
theorem utc_render_tokens (u : Utc) :
    u.fmtDebug = "Z" ∧ u.fmtDisplay = "UTC" :=
  ⟨rfl, rfl⟩

/-- C5 witness: the theorem applied at the singleton zone. -/
theorem utc_render_tokens_witness :
    Utc.fmtDebug {} = "Z" ∧ Utc.fmtDisplay {} = "UTC" :=
  utc_render_tokens {}

/-- C6: `Utc.now` fails fatally (modelled as `Option.none`) exactly when
the host clock reading lies outside the representable range `[lo, hi]`;
otherwise it returns the clock instant tagged with the `Utc` zone. -/
theorem utc_now_fails_iff_clock_out_of_range (lo hi clock : Int) :
    (Utc.now lo hi clock = none ↔ ¬ (lo ≤ clock ∧ clock ≤ hi)) ∧
    (lo ≤ clock → clock ≤ hi → Utc.now lo hi clock = some (clock, {})) := by
  constructor
  · simp only [Utc.now, try_from_system_time]
    by_cases h : lo ≤ clock ∧ clock ≤ hi <;> simp [h]
  · intro h1 h2
    simp [Utc.now, try_from_system_time, h1, h2]

/-- C6 witness: with range `[-10, 10]` and a clock reading of 3, `now`
succeeds with the instant tagged `Utc`. -/
theorem utc_now_fails_iff_clock_out_of_range_witness :
    Utc.now (-10) 10 3 = some (3, {}) :=
  (utc_now_fails_iff_clock_out_of_range (-10) 10 3).2 (by decide) (by decide)

/-- C7: for every second count `s` with `|s| >= 86400`, both
`FixedOffset.east s` and `FixedOffset.west s` fail with `RangeError`; the
bound is hard, never clamped or wrapped. -/
theorem fixed_offset_out_of_range_fails (s : Int) (h : 86400 ≤ |s|) :
    FixedOffset.east s = .error .rangeError ∧
    FixedOffset.west s = .error .rangeError := by
  have hs : ¬ (-86400 < s ∧ s < 86400) := by
    rcases abs_cases s with ⟨he, _⟩ | ⟨he, _⟩ <;> omega
  exact ⟨by simp [FixedOffset.east, hs], by simp [FixedOffset.west, hs]⟩

/-- C7 witness: at `s = 100000` both constructors fail. -/
theorem fixed_offset_out_of_range_fails_witness :
    FixedOffset.east 100000 = .error .rangeError ∧
    FixedOffset.west 100000 = .error .rangeError :=
  fixed_offset_out_of_range_fails 100000 (by norm_num)

/-- C8: for every second count `s` with `|s| < 86400`, `FixedOffset.east s`
succeeds with displacement `s` and `FixedOffset.west s` succeeds with
displacement `-s` (west negates the magnitude before storing). -/
theorem fixed_offset_in_range_displacement (s : Int) (h : |s| < 86400) :
    (FixedOffset.east s).map (fun o => o.fix.displacement) = .ok s ∧
    (FixedOffset.west s).map (fun o => o.fix.displacement) = .ok (-s) := by
  have hs : -86400 < s ∧ s < 86400 := by
    rcases abs_cases s with ⟨he, _⟩ | ⟨he, _⟩ <;> omega
  exact ⟨by simp [FixedOffset.east, hs, FixedOffset.fix, FixedOffset.displacement,
      Except.map],
    by simp [FixedOffset.west, hs, FixedOffset.fix, FixedOffset.displacement,
      Except.map]⟩

/-- C8 witness: at `s = 3600` east stores 3600 and west stores -3600. -/
theorem fixed_offset_in_range_displacement_witness :
    (FixedOffset.east 3600).map (fun o => o.fix.displacement) = .ok 3600 ∧
    (FixedOffset.west 3600).map (fun o => o.fix.displacement) = .ok (-3600) :=
  fixed_offset_in_range_displacement 3600 (by norm_num)

/-- C9: round-trip through a fixed offset is the identity — adding the
offset to go from UTC to local and subtracting it to go back reproduces
the timestamp exactly — and a fixed offset resolves every local datetime
to `Single(self)`, never `Ambiguous` or `None`. -/
theorem fixed_offset_round_trip (o : FixedOffset) (t : NaiveDateTime) :
    o.local_to_utc (o.utc_to_local t) = t ∧
    o.offset_from_local_datetime t = .Single o := by
  refine ⟨?_, rfl⟩
  simp [FixedOffset.local_to_utc, FixedOffset.utc_to_local]

/-- C9 witness: the theorem applied at the one-hour-east offset and the
naive datetime 12345. -/
theorem fixed_offset_round_trip_witness :
    FixedOffset.local_to_utc ⟨3600⟩ (FixedOffset.utc_to_local ⟨3600⟩ 12345) =
      12345 :=
  (fixed_offset_round_trip ⟨3600⟩ 12345).1

/-- C10: `Utc.fix` never panics — `FixedOffset.east 0` succeeds because 0
lies strictly within the valid range, so the error branch of the `unwrap`
is unreachable (modelled: the option is always `some`). -/
theorem utc_fix_never_panics (u : Utc) :
    (u.fix).isSome = true ∧ FixedOffset.east 0 ≠ .error .rangeError := by
  have he : FixedOffset.east 0 = .ok ⟨0⟩ := rfl
  exact ⟨rfl, by rw [he]; exact fun hcontra => Except.noConfusion hcontra⟩

/-- C10 witness: the theorem applied at the singleton zone. -/
theorem utc_fix_never_panics_witness : (Utc.fix {}).isSome = true :=
  (utc_fix_never_panics {}).1
